import Mathlib

/-!
Shallow embedding of `src/main.py` (Ada Local Node) and verification of the
frozen claims about its bridge/dispatch subsystem.

Modelling conventions:
- Python JSON-ish values become the inductive `JVal`; a Python `dict` of
  keyword arguments becomes an association list `Args`.
- Every external effect (subprocess, HTTP call, filesystem, clock) is an
  input: a "world" record supplies the outcome the environment would have
  produced at each effect site.  A Python function that can raise becomes a
  Lean function into `Except PyErr _`; a Python function whose whole body is
  wrapped in `try/except Exception` becomes a total Lean function.
- Mutation of the module-level `state` dict becomes explicit state passing
  (`BridgeSt` for the bridge counters, `TokenSt` for the token cache).
-/

set_option autoImplicit false

namespace AdaNode

/-- JSON-like Python values as they appear in job arguments and results. -/
inductive JVal where
  | s (v : String)
  | i (v : Int)
  | b (v : Bool)
  | null
  | arr (xs : List JVal)
  | obj (kvs : List (String × JVal))

/-- Python exceptions that can cross function boundaries in the embedded code. -/
inductive PyErr where
  | typeError (msg : String)
  | attrError (msg : String)
  | exn (msg : String)
  deriving Repr, DecidableEq

/-- A Python keyword-argument dict (keys assumed distinct, as in a dict). -/
abbrev Args := List (String × JVal)

/-- Python truthiness of a `JVal` (used by `if safe_mode and ...`). -/
def truthy : JVal → Bool
  | .s v => v ≠ ""
  | .i v => v ≠ 0
  | .b v => v
  | .null => false
  | .arr xs => ¬ xs.isEmpty
  | .obj kvs => ¬ kvs.isEmpty

/-- Python substring test `pat in s`. -/
def strContains (s pat : String) : Bool :=
  (List.range (s.length + 1)).any (fun k => pat.data.isPrefixOf (s.data.drop k))

/-- Python slice `s[:n]` (by characters). -/
def strTake (s : String) (n : Nat) : String :=
  ⟨s.data.take n⟩

/-- Python `str()` rendering, as far as the embedded code needs it.
List/dict renderings are abbreviated; no verified property depends on them. -/
def pyStr : JVal → String
  | .s v => v
  | .i v => toString v
  | .b true => "True"
  | .b false => "False"
  | .null => "None"
  | .arr _ => "[...]"
  | .obj _ => "\x7b...\x7d"

/-- `str()` of an optional value (`None` when absent). -/
def pyStrOpt : Option JVal → String
  | none => "None"
  | some v => pyStr v

/-- One formal parameter of a Python `async def` handler: its name and its
default value, when the source gives one. -/
structure Param where
  name : String
  default : Option JVal

/-- Python keyword-argument binding for a call `f(**args)` against the
signature `sig`: raises `TypeError` on an unexpected keyword or on a missing
required parameter; otherwise yields the bound parameter list in signature
order. -/
def bindKwargs (sig : List Param) (args : Args) : Except PyErr Args :=
  if args.any (fun kv => ¬ sig.any (fun p => p.name = kv.1)) then
    .error (.typeError "unexpected keyword argument")
  else
    sig.foldr
      (fun p acc => do
        let bound ← acc
        match List.lookup p.name args with
        | some v => pure ((p.name, v) :: bound)
        | none =>
            match p.default with
            | some d => pure ((p.name, d) :: bound)
            | none => .error (.typeError ("missing required argument: " ++ p.name)))
      (pure [])

/-- Value of a bound parameter (total: binding guarantees presence). -/
def argOf (bound : Args) (k : String) : JVal :=
  (List.lookup k bound).getD .null

/-- Outcome the environment produces for one `subprocess.run` call. -/
inductive ExecOutcome where
  | finished (stdout stderr : String) (exitCode : Int)
  | timedOut (msg : String)
  | failed (msg : String)

/-- Outcome the environment produces for one `httpx` request:
either the request raised, or a response arrived whose `.json()` parse
in turn either raised or produced a value. -/
inductive HttpOutcome where
  | raised (msg : String)
  | response (status : Nat) (jsonBody : Except String JVal)

/-- The environment behind one invocation of a capability handler:
outcomes for every effect site any of the four handlers may reach. -/
structure ToolWorld where
  barkCheck : ExecOutcome
  barkGen : ExecOutcome
  timestamp : String
  n8n : HttpOutcome
  exec : ExecOutcome
  fsRead : Except String String
  fsWrite : Except String Unit
  fsList : Except String (List String)

/-- Embedding of `tool_bark_tts` (src/main.py lines 79-104).  The whole body
is inside `try/except Exception`, so the handler never raises once entered;
the subprocess outcomes come from the world. -/
def tool_bark_tts (_bound : Args) (w : ToolWorld) : Except PyErr JVal :=
  match w.barkCheck with
  | .timedOut m => .ok (.obj [("error", .s m)])
  | .failed m => .ok (.obj [("error", .s m)])
  | .finished stdout _ _ =>
      if ¬ strContains stdout "ok" then
        .ok (.obj [("error", .s "Bark not installed"), ("hint", .s "pip install bark")])
      else
        match w.barkGen with
        | .timedOut m => .ok (.obj [("error", .s m)])
        | .failed m => .ok (.obj [("error", .s m)])
        | .finished _ _ _ =>
            .ok (.obj [("audio_path", .s ("/tmp/bark_" ++ w.timestamp ++ ".wav")),
                       ("status", .s "generated")])

/-- Embedding of `tool_n8n_trigger` (lines 106-118): the POST and the
`resp.json()` parse sit inside `try/except`, so any failure becomes a
structured error result. -/
def tool_n8n_trigger (_bound : Args) (w : ToolWorld) : Except PyErr JVal :=
  match w.n8n with
  | .raised m => .ok (.obj [("error", .s m)])
  | .response status body =>
      match body with
      | .error m => .ok (.obj [("error", .s m)])
      | .ok j => .ok (.obj [("status", .i (Int.ofNat status)), ("result", j)])

/-- The dangerous-substring denylist of `tool_local_exec` (line 122). -/
def dangerous : List String := ["rm -rf", "dd if=", "mkfs", "> /dev/", "chmod 777"]

/-- Embedding of `tool_local_exec` (lines 120-139).  The safe-mode check sits
outside the `try`; for a string command it never raises, and the `subprocess`
part is fully caught.  A non-string command makes the Python membership test
`d in command` raise a `TypeError` outside the `try` (this models the
scalar cases; no verified property exercises a non-string command). -/
def tool_local_exec (bound : Args) (w : ToolWorld) : Except PyErr JVal :=
  match argOf bound "command" with
  | .s cmd =>
      if truthy (argOf bound "safe_mode") && dangerous.any (fun d => strContains cmd d) then
        .ok (.obj [("error", .s "Command blocked by safe_mode"), ("command", .s cmd)])
      else
        match w.exec with
        | .finished out err code =>
            .ok (.obj [("stdout", .s (strTake out 10000)),
                       ("stderr", .s (strTake err 2000)),
                       ("exit_code", .i code)])
        | .timedOut _ => .ok (.obj [("error", .s "Command timed out (60s)")])
        | .failed m => .ok (.obj [("error", .s m)])
  | _ => .error (.typeError "argument of type is not iterable")

/-- Embedding of `tool_filesystem` (lines 141-158): the whole body is inside
`try/except`, so it never raises; filesystem outcomes come from the world. -/
def tool_filesystem (bound : Args) (w : ToolWorld) : Except PyErr JVal :=
  match argOf bound "action" with
  | .s a =>
      if a = "read" then
        match w.fsRead with
        | .ok content => .ok (.obj [("content", .s (strTake content 50000))])
        | .error m => .ok (.obj [("error", .s m)])
      else if a = "write" then
        match w.fsWrite with
        | .ok _ => .ok (.obj [("status", .s "written"), ("path", argOf bound "path")])
        | .error m => .ok (.obj [("error", .s m)])
      else if a = "list" then
        match w.fsList with
        | .ok items => .ok (.obj [("items", .arr ((items.take 100).map .s))])
        | .error m => .ok (.obj [("error", .s m)])
      else
        .ok (.obj [("error", .s ("Unknown action: " ++ a))])
  | other =>
      -- a non-string action equals none of the string literals in the chain
      .ok (.obj [("error", .s ("Unknown action: " ++ pyStr other))])

/-- One entry of the `TOOLS` registry (lines 161-182): signature of the
handler, its registry metadata, and the handler itself. -/
structure ToolEntry where
  sig : List Param
  description : String
  schemaProps : List (String × String)
  run : Args → ToolWorld → Except PyErr JVal

/-- Registry entry for `bark_tts`. -/
def barkTtsEntry : ToolEntry :=
  { sig := [⟨"text", none⟩, ⟨"voice", some (.s "v2/en_speaker_6")⟩]
    description := "Generate speech from text using Bark TTS"
    schemaProps := [("text", "string"), ("voice", "string (optional)")]
    run := tool_bark_tts }

/-- Registry entry for `n8n_trigger`. -/
def n8nTriggerEntry : ToolEntry :=
  { sig := [⟨"workflow", none⟩, ⟨"payload", some (.obj [])⟩]
    description := "Trigger n8n workflow by webhook name"
    schemaProps := [("workflow", "string"), ("payload", "object (optional)")]
    run := tool_n8n_trigger }

/-- Registry entry for `local_exec`. -/
def localExecEntry : ToolEntry :=
  { sig := [⟨"command", none⟩, ⟨"safe_mode", some (.b true)⟩]
    description := "Execute local shell command"
    schemaProps := [("command", "string"), ("safe_mode", "boolean (default true)")]
    run := tool_local_exec }

/-- Registry entry for `filesystem`. -/
def filesystemEntry : ToolEntry :=
  { sig := [⟨"action", none⟩, ⟨"path", none⟩, ⟨"content", some .null⟩]
    description := "Read/write/list filesystem"
    schemaProps := [("action", "read|write|list"), ("path", "string"),
                    ("content", "string (for write)")]
    run := tool_filesystem }

/-- The `TOOLS` registry (lines 161-182), in source order. -/
def TOOLS : List (String × ToolEntry) :=
  [("bark_tts", barkTtsEntry),
   ("n8n_trigger", n8nTriggerEntry),
   ("local_exec", localExecEntry),
   ("filesystem", filesystemEntry)]

/-- Registry lookup `TOOLS[name]` / `name in TOOLS`. -/
def lookupTool (name : String) : Option ToolEntry :=
  List.lookup name TOOLS

/-- The Python call `tool_fn(**args)`: keyword binding (which may raise
`TypeError`) followed by the handler body. -/
def callTool (entry : ToolEntry) (args : Args) (w : ToolWorld) : Except PyErr JVal := do
  let bound ← bindKwargs entry.sig args
  entry.run bound w

/-- A job received from the hive or pushed directly (`HiveJob`, lines 69-73). -/
structure HiveJob where
  job_id : String
  tool : String
  args : Args
  callback_url : Option String

/-- The bridge-relevant fields of the module-level `state` dict (lines 40-47).
The token cache is modelled separately as `TokenSt`. -/
structure BridgeSt where
  registered : Bool
  jobs_processed : Nat
  last_sync : Option String
  deriving Repr, DecidableEq

/-- Initial `state` values (registration flag false, counter zero, no sync). -/
def bridgeSt0 : BridgeSt :=
  { registered := false, jobs_processed := 0, last_sync := none }

/-- Environment behind the result-report block of `process_job`
(lines 295-308): the outcome of the inner `get_token()` call and of the
result POST.  Only raise-or-return matters: the POST status is ignored. -/
structure ReportWorld where
  getToken : Except String String
  post : Except String Nat

/-- Environment behind one `process_job` call. -/
structure ProcessWorld where
  tool : ToolWorld
  report : ReportWorld

/-- Observable events of the dispatch path, used to state ordering claims. -/
inductive Ev where
  | handlerCall (tool : String)
  | handlerDone (tool : String)
  | reportAttempt (jobId : String)
  | ack (jobId : String)
  deriving Repr, DecidableEq, BEq

/-- The result payload for an unregistered tool (line 288). -/
def unknownToolResult : JVal := .obj [("error", .s "Unknown tool")]

/-- The report block of `process_job` (lines 295-308): `get_token`, the
result POST and the counter increment run inside one `try`; any raise jumps
to the `except`, skipping whatever follows it — in particular the increment
runs only when both the token fetch and the POST return. -/
def reportStep (st : BridgeSt) (w : ReportWorld) : BridgeSt :=
  match w.getToken with
  | .error _ => st
  | .ok _ =>
      match w.post with
      | .error _ => st
      | .ok _ => { st with jobs_processed := st.jobs_processed + 1 }

/-- Whether the report block completes without raising. -/
def reportOk (w : ReportWorld) : Bool :=
  match w.getToken, w.post with
  | .ok _, .ok _ => true
  | _, _ => false

/-- Embedding of `process_job` (lines 284-308).  The handler invocation
`tool_fn(**job.args)` is NOT inside any `try`: an exception it raises
(for instance a keyword-binding `TypeError`) propagates to the caller,
which the `Except` result records.  Returns the state after the call, the
event trace, and either the computed result payload or the escaped
exception. -/
def process_job (st : BridgeSt) (job : HiveJob) (w : ProcessWorld) :
    BridgeSt × List Ev × Except PyErr JVal :=
  match lookupTool job.tool with
  | none =>
      (reportStep st w.report, [.reportAttempt job.job_id], .ok unknownToolResult)
  | some entry =>
      match callTool entry job.args w.tool with
      | .error e => (st, [.handlerCall job.tool], .error e)
      | .ok result =>
          (reportStep st w.report,
           [.handlerCall job.tool, .handlerDone job.tool, .reportAttempt job.job_id],
           .ok result)

/-- Whether dispatching this job raises out of `process_job` (depends only on
the registry, the arguments and the tool world, not on the bridge state). -/
def jobRaises (job : HiveJob) (w : ProcessWorld) : Bool :=
  match lookupTool job.tool with
  | none => false
  | some entry =>
      match callTool entry job.args w.tool with
      | .error _ => true
      | .ok _ => false

/-- Embedding of the `/invoke` endpoint `invoke_from_railway`
(lines 438-442): it AWAITS `process_job(job)` and only afterwards returns
the acceptance payload; if `process_job` raises, the exception escapes the
endpoint and no acceptance payload is produced. -/
def invoke_from_railway (st : BridgeSt) (job : HiveJob) (w : ProcessWorld) :
    BridgeSt × List Ev × Except PyErr JVal :=
  let out := process_job st job w
  match out.2.2 with
  | .error e => (out.1, out.2.1, .error e)
  | .ok _ =>
      (out.1, out.2.1 ++ [.ack job.job_id],
       .ok (.obj [("status", .s "accepted"), ("job_id", .s job.job_id)]))

/-- The token cache inside the module-level `state` dict. -/
structure TokenSt where
  token : Option String
  token_expiry : Option Nat
  deriving Repr, DecidableEq

/-- Environment behind one cache-miss path of `get_token` (lines 193-236):
the authorize POST raises or yields the `location` header (empty string when
the header is absent); the token exchange raises or yields the
`access_token` field of the response (absent field gives `none`); `acqNow`
is the clock sample taken when computing the new expiry. -/
structure AuthWorld where
  authorize : Except String String
  tokenExchange : Except String (Option String)
  acqNow : Nat

/-- Python truthiness of `state["token"]` (an empty string is falsy). -/
def truthyStr : Option String → Bool
  | none => false
  | some s => s ≠ ""

/-- The cache test on line 190:
`state["token"] and state["token_expiry"] and datetime.now() < state["token_expiry"]`
(a cached `datetime` is always truthy, hence `isSome`). -/
def cacheValid (now : Nat) (st : TokenSt) : Bool :=
  truthyStr st.token &&
    (match st.token_expiry with
     | some e => decide (now < e)
     | none => false)

/-- Code extraction from the redirect (lines 211-214):
`location.split("code=")[1].split("&")[0]` guarded by `"code=" in location`. -/
def extractCode (location : String) : Option String :=
  if strContains location "code=" then
    match location.splitOn "code=" with
    | _ :: rest :: _ => some ((rest.splitOn "&").headD "")
    | _ => none
  else none

/-- Token validity window hard-coded on lines 232-234 (one hour). -/
def hourSecs : Nat := 3600

/-- Embedding of `get_token` (lines 188-236).  Returns the token handed to
the caller, the updated cache, and whether an authorization and token
exchange occurred.  Raises (as `Except.error`) on a transport failure, on a
missing/empty authorization code, or on a failing token exchange. -/
def get_token (now : Nat) (st : TokenSt) (w : AuthWorld) :
    Except String (Option String × TokenSt × Bool) :=
  if cacheValid now st then
    .ok (st.token, st, false)
  else
    match w.authorize with
    | .error m => .error m
    | .ok location =>
        match extractCode location with
        | none => .error "Failed to get auth code"
        | some code =>
            if code = "" then .error "Failed to get auth code"
            else
              match w.tokenExchange with
              | .error m => .error m
              | .ok accessToken =>
                  .ok (accessToken,
                       { token := accessToken, token_expiry := some (w.acqNow + hourSecs) },
                       true)

/-- Environment behind one `register_node` call (lines 238-259): the
outcome of its `get_token()` call and of the registration POST (raised, or
returned with a status code). -/
structure RegWorld where
  getToken : Except String String
  post : Except String Nat

/-- Embedding of `register_node` (lines 238-259).  The whole body sits in
`try/except Exception`, so the function is total; the registration flag is
set only in the `resp.status_code == 200` branch, and no branch ever clears
it or touches the other fields. -/
def register_node (st : BridgeSt) (w : RegWorld) : BridgeSt :=
  match w.getToken with
  | .error _ => st
  | .ok _ =>
      match w.post with
      | .error _ => st
      | .ok status => if status = 200 then { st with registered := true } else st

/-- The pending-jobs response (lines 267-276): its HTTP status, and the
combined outcome of `resp.json()` plus per-job `HiveJob(**job)` validation
(either of which raises inside the same `try`). -/
structure PendingResp where
  status : Nat
  body : Except String (List HiveJob)

/-- Environment behind one iteration of the poll loop: outcome of
`get_token()`, outcome of the pending GET, a world for each dispatched job,
and the clock sample used for `last_sync`. -/
structure PollWorld where
  getToken : Except String String
  pending : Except String PendingResp
  jobWorlds : Nat → ProcessWorld
  now : String

/-- The `for job in jobs` loop of `poll_for_work` (lines 275-276): jobs are
dispatched sequentially; the first exception aborts the loop but keeps the
state mutations already made.  Returns the state and whether every job
completed without raising. -/
def runJobs (st : BridgeSt) (jobs : List HiveJob) (ws : Nat → ProcessWorld) (k : Nat) :
    BridgeSt × Bool :=
  match jobs with
  | [] => (st, true)
  | j :: rest =>
      let out := process_job st j (ws k)
      match out.2.2 with
      | .error _ => (out.1, false)
      | .ok _ => runJobs out.1 rest ws (k + 1)

/-- Whether every job of the batch dispatches without raising. -/
def jobsAllOk (jobs : List HiveJob) (ws : Nat → ProcessWorld) (k : Nat) : Bool :=
  match jobs with
  | [] => true
  | j :: rest => !jobRaises j (ws k) && jobsAllOk rest ws (k + 1)

/-- One iteration of the `while` body of `poll_for_work` (lines 263-282),
sleep elided.  Everything up to and including the `last_sync` assignment
sits in one `try`: an exception anywhere before that assignment skips it
(keeping mutations already made by dispatched jobs), and is then swallowed
by the `except`. -/
def poll_for_work_iteration (st : BridgeSt) (w : PollWorld) : BridgeSt :=
  match w.getToken with
  | .error _ => st
  | .ok _ =>
      match w.pending with
      | .error _ => st
      | .ok resp =>
          if resp.status = 200 then
            match resp.body with
            | .error _ => st
            | .ok jobs =>
                let out := runJobs st jobs w.jobWorlds 0
                if out.2 then { out.1 with last_sync := some w.now } else out.1
          else { st with last_sync := some w.now }

/-- Whether the iteration completes without an exception (token acquired,
GET returned, and — in the 200 branch — parsing and every dispatch
returned).  This is exactly the condition under which control reaches the
`last_sync` assignment. -/
def pollIterOk (w : PollWorld) : Bool :=
  match w.getToken with
  | .error _ => false
  | .ok _ =>
      match w.pending with
      | .error _ => false
      | .ok resp =>
          if resp.status = 200 then
            match resp.body with
            | .error _ => false
            | .ok jobs => jobsAllOk jobs w.jobWorlds 0
          else true

/-- The `while state["bridge_active"]` loop of `poll_for_work`: each list
element is the value of the active flag observed at loop-top together with
the environment of that iteration.  Returns the final state and the number
of iterations actually executed. -/
def poll_for_work (st : BridgeSt) (steps : List (Bool × PollWorld)) : BridgeSt × Nat :=
  match steps with
  | [] => (st, 0)
  | (active, w) :: rest =>
      if active then
        let next := poll_for_work (poll_for_work_iteration st w) rest
        (next.1, next.2 + 1)
      else (st, 0)

/-- `json.dumps`, structurally; string escaping is elided (no verified
property depends on the serialized text). -/
def jsonDumps : JVal → String
  | .s v => "\x22" ++ v ++ "\x22"
  | .i v => toString v
  | .b true => "true"
  | .b false => "false"
  | .null => "null"
  | .arr xs =>
      "[" ++ String.intercalate ", " (xs.attach.map (fun x => jsonDumps x.1)) ++ "]"
  | .obj kvs =>
      "\x7b" ++
        String.intercalate ", "
          (kvs.attach.map (fun kv => "\x22" ++ kv.1.1 ++ "\x22: " ++ jsonDumps kv.1.2)) ++
        "\x7d"
termination_by v => sizeOf v
decreasing_by
  · have := List.sizeOf_lt_of_mem x.2
    simp only [JVal.arr.sizeOf_spec]
    omega
  · have h1 := List.sizeOf_lt_of_mem kv.2
    have h2 : sizeOf kv.1.2 < sizeOf kv.1 := by
      rcases kv.1 with ⟨a, b⟩
      simp only [Prod.mk.sizeOf_spec]
      omega
    simp only [JVal.obj.sizeOf_spec]
    omega

/-- The node identifier; the source reads it from the environment with
default value `wsl-local` (line 27).  The verified properties do not depend
on its value. -/
def NODE_ID : String := "wsl-local"

/-- An inbound JSON-RPC request (`MCPRequest`, lines 53-57); `jsonrpc` is a
constant tag and is elided. -/
structure MCPReq where
  id : Option Int
  method : String
  params : Option Args

/-- An outbound JSON-RPC response (`MCPResponse`, lines 59-63); the error
field carries the `(code, message)` pair. -/
structure MCPResp where
  id : Option Int
  result : Option JVal
  error : Option (Int × String)

/-- The `initialize` result payload (lines 387-394). -/
def initResult : JVal :=
  .obj [("protocolVersion", .s "2024-11-05"),
        ("serverInfo", .obj [("name", .s ("ada-local-" ++ NODE_ID)), ("version", .s "1.0.0")]),
        ("capabilities", .obj [("tools", .obj [])])]

/-- The `tools/list` result payload (lines 396-409), built from the registry. -/
def toolsListResult : JVal :=
  .obj [("tools",
         .arr (TOOLS.map (fun nt =>
           .obj [("name", .s nt.1),
                 ("description", .s nt.2.description),
                 ("inputSchema",
                  .obj [("type", .s "object"),
                        ("properties", .obj (nt.2.schemaProps.map (fun p => (p.1, .s p.2))))])])))]

/-- The `tools/call` success wrapper (lines 424-427). -/
def mcpContent (result : JVal) : JVal :=
  .obj [("content", .arr [.obj [("type", .s "text"), ("text", .s (jsonDumps result))]])]

/-- Embedding of the `/mcp/message` route `mcp_message` (lines 382-432).
The route body has no `try/except`: in the `tools/call` branch,
`request.params.get("name")` raises `AttributeError` when `params` is
absent (`None`), and an exception from `tool_fn(**tool_args)` — including a
keyword-binding `TypeError` — propagates out of the route (FastAPI then
answers with a generic 500, not a JSON-RPC error). -/
def mcp_message (req : MCPReq) (w : ToolWorld) : Except PyErr MCPResp :=
  if req.method = "initialize" then
    .ok ⟨req.id, some initResult, none⟩
  else if req.method = "tools/list" then
    .ok ⟨req.id, some toolsListResult, none⟩
  else if req.method = "tools/call" then
    match req.params with
    | none => .error (.attrError "NoneType object has no attribute get")
    | some ps =>
        -- tool_name = params.get("name"); tool_args = params.get("arguments", ...)
        let nameV : Option JVal := List.lookup "name" ps
        let argsV : JVal := (List.lookup "arguments" ps).getD (.obj [])
        match nameV with
        | some (.s nm) =>
            match lookupTool nm with
            | none => .ok ⟨req.id, none, some (-32601, "Tool not found: " ++ nm)⟩
            | some entry =>
                match argsV with
                | .obj kvs =>
                    match callTool entry kvs w with
                    | .error e => .error e
                    | .ok r => .ok ⟨req.id, some (mcpContent r), none⟩
                | _ =>
                    -- `tool_fn(**tool_args)` with a non-mapping raises TypeError
                    .error (.typeError "argument after ** must be a mapping")
        | other =>
            -- a non-string (or absent) name never equals a registry key
            .ok ⟨req.id, none, some (-32601, "Tool not found: " ++ pyStrOpt other)⟩
  else
    .ok ⟨req.id, none, some (-32601, "Unknown method: " ++ req.method)⟩

/-- Result of the `/mcp/invoke` route: raising `HTTPException(404, ...)` is
FastAPI's well-formed error channel, so it is a returned outcome here, not a
`PyErr`. -/
inductive InvokeOutcome where
  | httpError (status : Nat) (detail : String)
  | success (body : JVal)

/-- Embedding of the `/mcp/invoke` route `invoke_tool` (lines 372-380).
Unknown tools get a structured 404; a known tool is invoked with
`tool_fn(**call.args)`, whose exceptions (including binding `TypeError`)
propagate out of the route. -/
def invoke_tool (tool : String) (args : Args) (w : ToolWorld) :
    Except PyErr InvokeOutcome :=
  match lookupTool tool with
  | none => .ok (.httpError 404 ("Tool not found: " ++ tool))
  | some entry =>
      match callTool entry args w with
      | .error e => .error e
      | .ok r => .ok (.success (.obj [("result", r)]))

/-- A benign handler environment: every effect succeeds. -/
def toolW0 : ToolWorld :=
  { barkCheck := .finished "ok" "" 0
    barkGen := .finished "done" "" 0
    timestamp := "20240101_000000"
    n8n := .response 200 (.ok (.obj []))
    exec := .finished "hi" "" 0
    fsRead := .ok "data"
    fsWrite := .ok ()
    fsList := .ok ["a"] }

/-- A report environment where both the token fetch and the POST return. -/
def reportW0 : ReportWorld := { getToken := .ok "tok", post := .ok 200 }

/-- A dispatch environment where everything succeeds. -/
def procW0 : ProcessWorld := { tool := toolW0, report := reportW0 }

/-- A dispatch environment whose result POST raises a transport error. -/
def procWReportFail : ProcessWorld :=
  { tool := toolW0, report := { getToken := .ok "tok", post := .error "connection refused" } }

/-- A well-formed job for the registered `local_exec` tool. -/
def job0 : HiveJob :=
  { job_id := "j1", tool := "local_exec", args := [("command", .s "echo hi")],
    callback_url := none }

/-- A job naming a registered tool but missing its required argument. -/
def jobNoArgs : HiveJob :=
  { job_id := "j2", tool := "local_exec", args := [], callback_url := none }

/-- A job naming a tool absent from the registry. -/
def jobUnknown : HiveJob :=
  { job_id := "j3", tool := "nonexistent", args := [], callback_url := none }

/-- A poll environment: successful fetch, no pending jobs. -/
def pollWEmpty : PollWorld :=
  { getToken := .ok "tok"
    pending := .ok { status := 200, body := .ok [] }
    jobWorlds := fun _ => procW0
    now := "2024-01-01T00:00:00" }

/-- A poll environment whose token acquisition raises. -/
def pollWBad : PollWorld :=
  { getToken := .error "connection refused"
    pending := .ok { status := 200, body := .ok [] }
    jobWorlds := fun _ => procW0
    now := "2024-01-01T00:00:05" }

/-- A registration environment answering 201 Created (a 2xx status). -/
def regW201 : RegWorld := { getToken := .ok "tok", post := .ok 201 }

/-- An authorization environment for a fresh token fetch. -/
def authW0 : AuthWorld :=
  { authorize := .ok "http://localhost:8000/callback?code=abc&state=wsl-local"
    tokenExchange := .ok (some "tok2")
    acqNow := 1000 }

/-! ## Helper lemmas -/

theorem reportStep_jobs_processed (st : BridgeSt) (w : ReportWorld) :
    (reportStep st w).jobs_processed =
      st.jobs_processed + (if reportOk w then 1 else 0) := by
  unfold reportStep reportOk
  cases hg : w.getToken <;> cases hp : w.post <;> simp

theorem reportStep_last_sync (st : BridgeSt) (w : ReportWorld) :
    (reportStep st w).last_sync = st.last_sync := by
  unfold reportStep
  cases hg : w.getToken <;> cases hp : w.post <;> simp

theorem process_job_last_sync (st : BridgeSt) (job : HiveJob) (w : ProcessWorld) :
    (process_job st job w).1.last_sync = st.last_sync := by
  unfold process_job
  cases hl : lookupTool job.tool with
  | none => simp [reportStep_last_sync]
  | some entry =>
      cases hc : callTool entry job.args w.tool <;> simp [hc, reportStep_last_sync]

theorem process_job_error_iff (st : BridgeSt) (job : HiveJob) (w : ProcessWorld) :
    (∃ e, (process_job st job w).2.2 = Except.error e) ↔ jobRaises job w = true := by
  unfold process_job jobRaises
  cases hl : lookupTool job.tool with
  | none => simp
  | some entry =>
      cases hc : callTool entry job.args w.tool <;> simp [hc]

theorem runJobs_last_sync (jobs : List HiveJob) (ws : Nat → ProcessWorld) (k : Nat)
    (st : BridgeSt) :
    (runJobs st jobs ws k).1.last_sync = st.last_sync := by
  induction jobs generalizing st k with
  | nil => rfl
  | cons j rest ih =>
      unfold runJobs
      cases hr : (process_job st j (ws k)).2.2 <;>
        simp [hr, ih, process_job_last_sync]

theorem runJobs_snd (jobs : List HiveJob) (ws : Nat → ProcessWorld) (k : Nat)
    (st : BridgeSt) :
    (runJobs st jobs ws k).2 = jobsAllOk jobs ws k := by
  induction jobs generalizing st k with
  | nil => rfl
  | cons j rest ih =>
      unfold runJobs jobsAllOk
      cases hr : (process_job st j (ws k)).2.2 with
      | error e =>
          have : jobRaises j (ws k) = true :=
            (process_job_error_iff st j (ws k)).mp ⟨e, hr⟩
          simp [hr, this]
      | ok v =>
          have hn : jobRaises j (ws k) = false := by
            cases h2 : jobRaises j (ws k) with
            | false => rfl
            | true =>
                rcases (process_job_error_iff st j (ws k)).mpr h2 with ⟨e, he⟩
                rw [hr] at he
                cases he
          simp [hr, ih, hn]

/-! ## Claims -/

/-- C1 (claim as stated is refuted): dispatching a job whose tool IS in the
registry but whose arguments do not match the handler signature raises a
`TypeError` out of `process_job` instead of producing a result payload. -/
theorem C1_counterexample :
    (process_job bridgeSt0 jobNoArgs procW0).2.2 =
      Except.error (PyErr.typeError "missing required argument: command") := rfl

/-- C1 (amended): `process_job` yields the structured result
`{error: "Unknown tool"}` whenever the tool is absent from the registry, and
for a registered tool it returns exactly what the handler invocation
returns — so failures the handlers catch internally surface as structured
error results, but an exception of the invocation itself (such as an
argument-binding `TypeError`) propagates to the caller of `process_job`. -/
theorem C1_dispatch (st : BridgeSt) (job : HiveJob) (w : ProcessWorld) :
    (lookupTool job.tool = none →
      (process_job st job w).2.2 = Except.ok unknownToolResult) ∧
    (∀ entry, lookupTool job.tool = some entry →
      (process_job st job w).2.2 = callTool entry job.args w.tool) := by
  constructor
  · intro h
    simp [process_job, h]
  · intro entry h
    simp only [process_job, h]
    cases hc : callTool entry job.args w.tool <;> simp [hc]

/-- Witness for `C1_dispatch` at a concrete unregistered tool. -/
theorem C1_dispatch_witness :
    (process_job bridgeSt0 jobUnknown procW0).2.2 = Except.ok unknownToolResult :=
  (C1_dispatch bridgeSt0 jobUnknown procW0).1 rfl

/-- C3 (claim as stated is refuted): a job is dispatched successfully, the
result report is attempted (the trace shows the attempt) but the POST raises
a transport error — and the `jobs_processed` counter is NOT incremented,
because the increment sits after the POST inside the same `try`. -/
theorem C3_counterexample :
    (process_job bridgeSt0 job0 procWReportFail).2.1 =
      [Ev.handlerCall "local_exec", Ev.handlerDone "local_exec", Ev.reportAttempt "j1"] ∧
    (process_job bridgeSt0 job0 procWReportFail).1.jobs_processed = 0 :=
  ⟨rfl, rfl⟩

/-- C3 (amended): `process_job` increments `jobs_processed` exactly once
when the dispatch does not raise AND the report step (token fetch plus
result POST) completes without raising; any raise in the report step — or a
handler invocation that raises — leaves the counter unchanged. -/
theorem C3_counter (st : BridgeSt) (job : HiveJob) (w : ProcessWorld) :
    (process_job st job w).1.jobs_processed =
      st.jobs_processed +
        (if !jobRaises job w && reportOk w.report then 1 else 0) := by
  unfold process_job jobRaises
  cases hl : lookupTool job.tool with
  | none => simp [reportStep_jobs_processed]
  | some entry =>
      cases hc : callTool entry job.args w.tool <;>
        simp [hc, reportStep_jobs_processed]

/-- C2 (claim as stated is refuted): at a concrete pushed job the `/invoke`
trace shows the handler completing and the result report being attempted
BEFORE the acceptance acknowledgment is produced — the endpoint awaits
`process_job` rather than acknowledging first. -/
theorem C2_counterexample :
    (invoke_from_railway bridgeSt0 job0 procW0).2.1 =
      [Ev.handlerCall "local_exec", Ev.handlerDone "local_exec",
       Ev.reportAttempt "j1", Ev.ack "j1"] ∧
    ((invoke_from_railway bridgeSt0 job0 procW0).2.1).indexOf (Ev.handlerDone "local_exec") <
      ((invoke_from_railway bridgeSt0 job0 procW0).2.1).indexOf (Ev.ack "j1") :=
  ⟨rfl, by decide⟩

/-- C2 (amended): the `/invoke` endpoint returns the acceptance
acknowledgment only AFTER `process_job` has completed: when dispatch returns,
the acknowledgment event follows the entire dispatch trace; when dispatch
raises, the exception propagates and no acknowledgment is produced. -/
theorem C2_ack_after_completion (st : BridgeSt) (job : HiveJob) (w : ProcessWorld) :
    (∀ r, (invoke_from_railway st job w).2.2 = Except.ok r →
      (invoke_from_railway st job w).2.1 =
        (process_job st job w).2.1 ++ [Ev.ack job.job_id]) ∧
    (∀ e, (invoke_from_railway st job w).2.2 = Except.error e →
      (invoke_from_railway st job w).2.1 = (process_job st job w).2.1) := by
  unfold invoke_from_railway
  cases h : (process_job st job w).2.2 <;> simp [h]

/-- Witness for `C2_ack_after_completion` at a concrete job. -/
theorem C2_ack_after_completion_witness :
    (invoke_from_railway bridgeSt0 job0 procW0).2.1 =
      (process_job bridgeSt0 job0 procW0).2.1 ++ [Ev.ack "j1"] :=
  (C2_ack_after_completion bridgeSt0 job0 procW0).1
    (.obj [("status", .s "accepted"), ("job_id", .s "j1")]) rfl

/-- C4 (claim as stated is refuted): a `tools/call` request with absent
`params` makes the route raise an `AttributeError` (surfaced by the
framework as a generic fault, not a well-formed JSON-RPC error). -/
theorem C4_counterexample :
    mcp_message { id := some 1, method := "tools/call", params := none } toolW0 =
      Except.error (PyErr.attrError "NoneType object has no attribute get") := rfl

/-- C4 (amended): requests whose method is not `tools/call` always receive a
well-formed response, and a registered tool whose invocation raises makes
the direct-invoke route propagate that exception; but `tools/call` with
absent params raises an `AttributeError` out of the protocol route — an
unhandled fault rather than a well-formed error response. -/
theorem C4_sync_errors (req : MCPReq) (w : ToolWorld) (tool : String) (args : Args) :
    (req.method ≠ "tools/call" → ∃ resp, mcp_message req w = Except.ok resp) ∧
    (req.method = "tools/call" → req.params = none →
      mcp_message req w =
        Except.error (PyErr.attrError "NoneType object has no attribute get")) ∧
    (∀ entry e, lookupTool tool = some entry →
      callTool entry args w = Except.error e →
      invoke_tool tool args w = Except.error e) := by
  refine ⟨?_, ?_, ?_⟩
  · intro h
    unfold mcp_message
    by_cases h1 : req.method = "initialize"
    · simp [h1]
    · by_cases h2 : req.method = "tools/list"
      · simp [h1, h2]
      · simp [h1, h2, h]
  · intro h hp
    simp [mcp_message, h, hp]
  · intro entry e hl hc
    simp [invoke_tool, hl, hc]

/-- Witness for `C4_sync_errors` at a concrete unknown method. -/
theorem C4_sync_errors_witness :
    ∃ resp,
      mcp_message { id := some 1, method := "ping", params := none } toolW0 =
        Except.ok resp :=
  (C4_sync_errors { id := some 1, method := "ping", params := none } toolW0
    "local_exec" []).1 (by decide)

/-- C5 (claim as stated is refuted): a registration POST answered with
201 Created — a successful 2xx acknowledgment — leaves `registered` false,
because the source tests `status_code == 200` exactly. -/
theorem C5_counterexample :
    (register_node bridgeSt0 regW201).registered = false ∧ 200 ≤ 201 ∧ 201 < 300 :=
  ⟨rfl, by decide⟩

/-- C5 (amended): `register_node` never raises (total by construction, the
whole body being inside `try/except`), leaves every other field unchanged,
and ends with `registered` true exactly when it was already true or the
token fetch returned and the registration POST returned status exactly 200;
any error — and any 2xx status other than 200 — leaves `registered` at its
previous value (false when starting unregistered). -/
theorem C5_register_status (st : BridgeSt) (w : RegWorld) :
    ((register_node st w).registered = true ↔
      (st.registered = true ∨
        ((∃ t, w.getToken = Except.ok t) ∧ w.post = Except.ok 200))) ∧
    (register_node st w).jobs_processed = st.jobs_processed ∧
    (register_node st w).last_sync = st.last_sync := by
  unfold register_node
  cases hg : w.getToken with
  | error m => simp
  | ok t =>
      cases hp : w.post with
      | error m => simp
      | ok status =>
          by_cases hs : status = 200
          · subst hs
            simp
          · simp [hs]

/-- C6 (confirmed): one poll-loop iteration sets `last_sync` to the current
clock sample exactly when the iteration completes without an exception
(token acquired, pending fetch returned, and — when the fetch is a 200 —
parse and every job dispatch returned), independently of whether the job
list was empty; any exception leaves `last_sync` untouched. -/
theorem C6_last_sync (st : BridgeSt) (w : PollWorld) :
    (pollIterOk w = true →
      (poll_for_work_iteration st w).last_sync = some w.now) ∧
    (pollIterOk w = false →
      (poll_for_work_iteration st w).last_sync = st.last_sync) := by
  unfold poll_for_work_iteration pollIterOk
  cases hg : w.getToken with
  | error m => simp
  | ok t =>
      cases hp : w.pending with
      | error m => simp
      | ok resp =>
          by_cases hs : resp.status = 200
          · cases hb : resp.body with
            | error m => simp [hs, hb]
            | ok jobs =>
                cases hj : jobsAllOk jobs w.jobWorlds 0 <;>
                  simp [hs, hb, hj, runJobs_snd, runJobs_last_sync]
          · simp [hs]

/-- Witness for `C6_last_sync`: a successful poll with an empty job list
still updates `last_sync`. -/
theorem C6_last_sync_witness :
    (poll_for_work_iteration bridgeSt0 pollWEmpty).last_sync =
      some "2024-01-01T00:00:00" :=
  (C6_last_sync bridgeSt0 pollWEmpty).1 rfl

/-- C7 (confirmed): when the cache test of `get_token` passes (a truthy
cached token whose expiry lies strictly in the future), the cached token is
returned unchanged with no authorization or token exchange; when it fails
(absent/empty token, absent expiry, or expiry not in the future), any
successful return comes from a fresh exchange and caches an expiry equal to
the acquisition clock sample plus the fixed one-hour window. -/
theorem C7_token_cache (now : Nat) (st : TokenSt) (w : AuthWorld) :
    (cacheValid now st = true →
      get_token now st w = Except.ok (st.token, st, false)) ∧
    (cacheValid now st = false →
      ∀ tok st2 fetched, get_token now st w = Except.ok (tok, st2, fetched) →
        fetched = true ∧ st2.token_expiry = some (w.acqNow + hourSecs)) := by
  constructor
  · intro h
    simp [get_token, h]
  · intro h tok st2 fetched hok
    unfold get_token at hok
    rw [h] at hok
    simp only [Bool.false_eq_true, if_false] at hok
    split at hok
    · cases hok
    · split at hok
      · cases hok
      · split at hok
        · cases hok
        · split at hok
          · cases hok
          · cases hok
            exact ⟨rfl, rfl⟩

/-- Witness for `C7_token_cache`: a cached token with future expiry is
returned as-is, with no exchange. -/
theorem C7_token_cache_witness :
    get_token 5 { token := some "t", token_expiry := some 10 } authW0 =
      Except.ok (some "t", { token := some "t", token_expiry := some 10 }, false) :=
  (C7_token_cache 5 { token := some "t", token_expiry := some 10 } authW0).1 rfl

/-- C8 (confirmed): `tools/call` with a string name absent from the registry
answers the JSON-RPC error `-32601` with message `Tool not found: <name>`
and consults no handler (the response is identical under every handler
environment); any method other than the three known ones answers `-32601`
with `Unknown method: <method>`. -/
theorem C8_not_found (id : Option Int) (ps : Args) (nm : String)
    (w w2 : ToolWorld) (m : String) (p2 : Option Args) :
    (List.lookup "name" ps = some (JVal.s nm) → lookupTool nm = none →
      mcp_message { id := id, method := "tools/call", params := some ps } w =
        Except.ok { id := id, result := none,
                    error := some (-32601, "Tool not found: " ++ nm) } ∧
      mcp_message { id := id, method := "tools/call", params := some ps } w =
        mcp_message { id := id, method := "tools/call", params := some ps } w2) ∧
    (m ∉ (["initialize", "tools/list", "tools/call"] : List String) →
      mcp_message { id := id, method := m, params := p2 } w =
        Except.ok { id := id, result := none,
                    error := some (-32601, "Unknown method: " ++ m) }) := by
  constructor
  · intro hn hl
    constructor <;> simp [mcp_message, hn, hl]
  · intro hm
    have h1 : m ≠ "initialize" := by intro h; exact hm (by simp [h])
    have h2 : m ≠ "tools/list" := by intro h; exact hm (by simp [h])
    have h3 : m ≠ "tools/call" := by intro h; exact hm (by simp [h])
    simp [mcp_message, h1, h2, h3]

/-- Witness for `C8_not_found` at the unregistered tool name
`nonexistent`. -/
theorem C8_not_found_witness :
    mcp_message { id := some 7, method := "tools/call",
                  params := some [("name", JVal.s "nonexistent")] } toolW0 =
      Except.ok { id := some 7, result := none,
                  error := some (-32601, "Tool not found: nonexistent") } :=
  ((C8_not_found (some 7) [("name", .s "nonexistent")] "nonexistent" toolW0 toolW0
      "ping" none).1 rfl rfl).1

/-- C9 (confirmed): as long as the flag observed at each loop-top is true,
`poll_for_work` executes every iteration — an iteration whose environment
fails in any way (its effects are all absorbed by the per-iteration
`try/except`) never terminates the loop. -/
theorem C9_loop_resilient (st : BridgeSt) (steps : List (Bool × PollWorld)) :
    (∀ s ∈ steps, s.1 = true) → (poll_for_work st steps).2 = steps.length := by
  induction steps generalizing st with
  | nil => intro _; rfl
  | cons s rest ih =>
      intro h
      rcases s with ⟨active, w⟩
      have h1 : active = true := h (active, w) (List.mem_cons_self _ _)
      subst h1
      simp [poll_for_work, ih _ (fun s hs => h s (List.mem_cons_of_mem _ hs))]

/-- Witness for `C9_loop_resilient`: two consecutive iterations whose token
acquisition raises are both executed. -/
theorem C9_loop_resilient_witness :
    (poll_for_work bridgeSt0 [(true, pollWBad), (true, pollWBad)]).2 = 2 :=
  C9_loop_resilient bridgeSt0 [(true, pollWBad), (true, pollWBad)] (by simp)

/-- C10 (confirmed): when the bound `command` argument of `local_exec` is a
string containing any denylisted substring and `safe_mode` is truthy, the
handler answers the structured blocked result — for every execution
environment, so the command outcome is never consulted (no execution). -/
theorem C10_safe_mode (args bound : Args) (cmd : String) (w : ToolWorld)
    (hb : bindKwargs localExecEntry.sig args = Except.ok bound)
    (hc : argOf bound "command" = JVal.s cmd)
    (hs : truthy (argOf bound "safe_mode") = true)
    (hd : dangerous.any (fun d => strContains cmd d) = true) :
    callTool localExecEntry args w =
      Except.ok (.obj [("error", .s "Command blocked by safe_mode"),
                       ("command", .s cmd)]) := by
  unfold callTool
  rw [hb]
  show tool_local_exec bound w = _
  unfold tool_local_exec
  rw [hc]
  simp [hs, hd]

/-- Witness for `C10_safe_mode` at the concrete command `rm -rf /`. -/
theorem C10_safe_mode_witness :
    callTool localExecEntry [("command", JVal.s "rm -rf /")] toolW0 =
      Except.ok (.obj [("error", .s "Command blocked by safe_mode"),
                       ("command", .s "rm -rf /")]) :=
  C10_safe_mode [("command", .s "rm -rf /")]
    [("command", .s "rm -rf /"), ("safe_mode", .b true)]
    "rm -rf /" toolW0 rfl rfl rfl rfl

end AdaNode
